import Mathlib

/-!
Shallow embedding of the KNEX storefront backend cart/order/stock core
(src/routes/cart.routes.ts, src/routes/order.routes.ts), with proofs about
the cart ledger, the order assembler, the pricing resolver and the
fulfillment status transition.

Conventions of the embedding:
* JSON numbers (prices, money) are modelled as `Rat`; quantities and ids as
  `Int`/`Nat`.  JavaScript falsy coalescing `x || y` on numbers treats `0`
  as falsy and on strings treats `""` as falsy; the helpers `jsStrOrNull`,
  `jsNumOr`, `jsStrOr` encode exactly that.
* An absent/`undefined`/`null` JSON field is `Option.none`.
* Database tables are lists of records; `prisma.x.findFirst` is
  `List.find?`, `prisma.x.update` by unique id is a `List.map` that
  rewrites the matching record, `deleteMany` is a `List.filter`.
-/

namespace Knex

/-- Variant descriptor carried on a cart line
(`selectedVariant as { id?; name?; image?; price? }`). -/
structure VariantRef where
  id : Option Int
  name : Option String
  image : Option String
  price : Option Rat
deriving DecidableEq

/-- `customSelections as Record<string, string> | null`: a JSON object of
string fields, kept in serialization order. -/
def CustomSel := List (String × String)
deriving instance DecidableEq for CustomSel

/-- One row of the `CartItem` table. -/
structure CartItem where
  id : Nat
  userId : Nat
  productId : Int
  quantity : Int
  selectedColor : Option String
  selectedSize : Option String
  selectedVariant : Option VariantRef
  customSelections : Option CustomSel
deriving DecidableEq

/-- JavaScript `s || null` on an optional string: `undefined`, `null` and
`""` all collapse to `null`. -/
def jsStrOrNull : Option String → Option String
  | none => none
  | some s => if s = "" then none else some s

/-- JavaScript truthiness of the `productId` field (`!productId` rejects
`undefined`, `null` and `0`). -/
def truthyPid : Option Int → Bool
  | none => false
  | some n => n != 0

/-- Body of a `POST /api/cart` request after destructuring
(`quantity = 1` default already applied by the destructuring). -/
structure AddReq where
  productId : Option Int
  quantity : Int
  selectedColor : Option String
  selectedSize : Option String
  selectedVariant : Option VariantRef
  customSelections : Option CustomSel
deriving DecidableEq

/-- Outcome of the add-to-cart handler. -/
inductive AddResult
  | validationError
  | merged (itemId : Nat) (newQty : Int)
  | created (item : CartItem)
deriving DecidableEq

/-- The `whereClause` of the add-to-cart handler: the lookup for an
existing row compares `userId`, `productId`, `selectedColor || null` and
`selectedSize || null` — nothing else. -/
def sameShallowKey (userId : Nat) (pid : Int) (color size : Option String)
    (it : CartItem) : Bool :=
  it.userId == userId && it.productId == pid &&
    it.selectedColor == color && it.selectedSize == size

/-- The row `prisma.cartItem.create` inserts in the add-to-cart handler:
falsy color/size collapse to `null`; `selectedVariant || null` and
`customSelections || null` keep any present object, since objects are
truthy. -/
def newCartItem (userId : Nat) (req : AddReq) (nextId : Nat) : CartItem :=
  { id := nextId, userId := userId, productId := req.productId.getD 0,
    quantity := req.quantity,
    selectedColor := jsStrOrNull req.selectedColor,
    selectedSize := jsStrOrNull req.selectedSize,
    selectedVariant := req.selectedVariant,
    customSelections := req.customSelections }

/-- `cartRouter.post('/')` (cart.routes.ts lines 91-145), after the auth
check: validate `productId`, look up an existing row with the shallow
`whereClause`, then either increment that row by the requested quantity or
insert a fresh row. -/
def addLine (userId : Nat) (req : AddReq) (nextId : Nat)
    (cart : List CartItem) : AddResult × List CartItem :=
  if !truthyPid req.productId then (.validationError, cart)
  else
    match cart.find? (sameShallowKey userId (req.productId.getD 0)
        (jsStrOrNull req.selectedColor) (jsStrOrNull req.selectedSize)) with
    | some existing =>
        (.merged existing.id (existing.quantity + req.quantity),
         cart.map fun it =>
           if it.id = existing.id then
             { it with quantity := existing.quantity + req.quantity }
           else it)
    | none =>
        (.created (newCartItem userId req nextId),
         cart ++ [newCartItem userId req nextId])

/-- Outcome of the update-quantity handler. -/
inductive SetQtyResult
  | validationError
  | notFound
  | ok
deriving DecidableEq

/-- `cartRouter.put('/:itemId')` (cart.routes.ts lines 148-184), after the
auth check: reject `quantity < 1` first, then check the row exists and is
owned by the caller, then write the new quantity. -/
def setQuantity (userId : Nat) (itemId : Nat) (quantity : Int)
    (cart : List CartItem) : SetQtyResult × List CartItem :=
  if quantity < 1 then (.validationError, cart)
  else
    match cart.find? (fun it => it.id == itemId && it.userId == userId) with
    | none => (.notFound, cart)
    | some _ =>
        (.ok, cart.map fun it =>
          if it.id = itemId then { it with quantity := quantity } else it)

/-! Concrete fixtures used to exercise the cart handlers. -/

/-- A stored cart line of user 1 for product 1 carrying variant 1. -/
def itemVariantA : CartItem :=
  { id := 1, userId := 1, productId := 1, quantity := 1,
    selectedColor := none, selectedSize := none,
    selectedVariant := some ⟨some 1, some "A", none, some 10⟩,
    customSelections := none }

/-- An add request for product 1 carrying a different variant (variant 2). -/
def reqVariantB : AddReq :=
  { productId := some 1, quantity := 1, selectedColor := none,
    selectedSize := none,
    selectedVariant := some ⟨some 2, some "B", none, some 20⟩,
    customSelections := none }

/-- An add request for product 1 with quantity 0. -/
def reqQtyZero : AddReq :=
  { productId := some 1, quantity := 0, selectedColor := none,
    selectedSize := none, selectedVariant := none,
    customSelections := none }

/-- The row `addLine 1 reqQtyZero 1 []` inserts. -/
def itemQtyZero : CartItem :=
  { id := 1, userId := 1, productId := 1, quantity := 0,
    selectedColor := none, selectedSize := none,
    selectedVariant := none, customSelections := none }

/-! ## Catalog, pricing resolver, orders -/

/-- One row of the `Product` table (the fields the order/cart core reads:
`title`, `slug`, `price`, `images`, `stock`). -/
structure Product where
  id : Int
  title : String
  slug : String
  price : Rat
  images : List String
  stock : Int
deriving DecidableEq

/-- JavaScript truthiness filter for an optional number: `undefined`,
`null` and `0` are falsy. -/
def jsRatOrNull : Option Rat → Option Rat
  | none => none
  | some q => if q = 0 then none else some q

/-- `selectedVariant?.price || product?.price || 0`
(order.routes.ts line 121, cart.routes.ts line 65): the `||` chain skips a
variant price that is absent **or zero**. -/
def resolvePrice (variant : Option VariantRef) (product : Option Product) : Rat :=
  match jsRatOrNull (variant.bind VariantRef.price) with
  | some q => q
  | none =>
      match jsRatOrNull (product.map Product.price) with
      | some r => r
      | none => 0

/-- `selectedVariant?.image || product?.images?.[0] || ''`
(order.routes.ts line 122, cart.routes.ts line 66): the `||` chain skips an
image that is absent or the empty string. -/
def resolveImage (variant : Option VariantRef) (product : Option Product) : String :=
  match jsStrOrNull (variant.bind VariantRef.image) with
  | some s => s
  | none =>
      match jsStrOrNull (product.bind fun pr => pr.images.head?) with
      | some t => t
      | none => ""

/-- Modelled from the spec wording of the Pricing Resolver, for comparison:
`unitPrice = line.selectedVariant?.price ?? productSnapshot.price ?? 0`,
i.e. null-coalescing, where a **defined** variant price (including 0) wins. -/
def resolvePriceSpec (variant : Option VariantRef) (product : Option Product) : Rat :=
  (variant.bind VariantRef.price).getD ((product.map Product.price).getD 0)

/-- One row of the `OrderItem` table plus the variant and option fields the
nested create carries (order.routes.ts lines 126-136). -/
structure OrderItemRec where
  productId : Int
  title : String
  price : Rat
  quantity : Int
  image : String
  selectedColor : Option String
  selectedSize : Option String
  selectedVariant : Option VariantRef
  customSelections : Option CustomSel
deriving DecidableEq

/-- One row of the `Order` table with its nested items. -/
structure OrderRec where
  id : Nat
  orderNumber : String
  userId : Nat
  customerName : String
  customerEmail : String
  customerPhone : String
  deliveryAddress : String
  deliveryArea : String
  deliveryCharge : Rat
  subtotal : Rat
  total : Rat
  paymentMethod : String
  paymentStatus : String
  status : String
  notes : Option String
  items : List OrderItemRec
deriving DecidableEq

/-- The persistent state the core touches: the three tables. -/
structure DB where
  cartItems : List CartItem
  orders : List OrderRec
  products : List Product
deriving DecidableEq

/-- Body of `POST /api/orders` after destructuring (missing string fields
collapse to `""`, which is falsy; `paymentMethod = 'cod'` default already
applied). -/
structure ShippingReq where
  customerName : String
  customerEmail : String
  customerPhone : String
  deliveryAddress : String
  deliveryArea : String
  paymentMethod : String
deriving DecidableEq

/-- The validation guard of the order handler:
`!customerName || !customerPhone || !deliveryAddress || !deliveryArea`. -/
def validShipping (req : ShippingReq) : Bool :=
  req.customerName != "" && req.customerPhone != "" &&
    req.deliveryAddress != "" && req.deliveryArea != ""

/-- The cart rows of one user (`prisma.cartItem.findMany({ where: { userId } })`). -/
def userCart (userId : Nat) (db : DB) : List CartItem :=
  db.cartItems.filter fun it => it.userId == userId

/-- The frozen order item built from a cart line (order.routes.ts lines
115-137): title falls back to `"Unknown Product"`, price and image come
from the pricing resolution, options are carried through. -/
def mkOrderItem (products : List Product) (it : CartItem) : OrderItemRec :=
  let product := products.find? fun p => p.id == it.productId
  { productId := it.productId,
    title := (jsStrOrNull (product.map Product.title)).getD "Unknown Product",
    price := resolvePrice it.selectedVariant product,
    quantity := it.quantity,
    image := resolveImage it.selectedVariant product,
    selectedColor := it.selectedColor,
    selectedSize := it.selectedSize,
    selectedVariant := it.selectedVariant,
    customSelections := it.customSelections }

/-- The running `subtotal += price * item.quantity` accumulation of the
order handler. -/
def orderSubtotal (products : List Product) (cart : List CartItem) : Rat :=
  cart.foldl
    (fun acc it =>
      acc + resolvePrice it.selectedVariant (products.find? fun p => p.id == it.productId)
        * (it.quantity : Rat))
    0

/-- Outcome of the place-order handler. -/
inductive PlaceResult
  | validationError
  | emptyCart
  | success (id : Nat) (orderNumber : String) (total : Rat) (status : String)
  | serverError
deriving DecidableEq

/-- The order record `prisma.order.create` persists (order.routes.ts lines
139-165): frozen items, accumulated subtotal, the two-tier delivery
charge, `total = subtotal + deliveryCharge`, status and paymentStatus both
`"pending"`. -/
def assembleOrder (userId : Nat) (req : ShippingReq) (orderId : Nat)
    (orderNumber : String) (db : DB) : OrderRec :=
  let cartItems := userCart userId db
  let subtotal := orderSubtotal db.products cartItems
  let deliveryCharge : Rat := if req.deliveryArea = "inside" then 80 else 150
  { id := orderId, orderNumber := orderNumber, userId := userId,
    customerName := req.customerName,
    customerEmail := req.customerEmail,
    customerPhone := req.customerPhone,
    deliveryAddress := req.deliveryAddress,
    deliveryArea := req.deliveryArea,
    deliveryCharge := deliveryCharge,
    subtotal := subtotal,
    total := subtotal + deliveryCharge,
    paymentMethod := req.paymentMethod,
    paymentStatus := "pending",
    status := "pending",
    notes := none,
    items := cartItems.map (mkOrderItem db.products) }

/-- `orderRouter.post('/')` (order.routes.ts lines 61-187), after the auth
check.  `prisma.order.create` with its nested `items` is one statement; the
cart is cleared by a **separate** `prisma.cartItem.deleteMany` that is not
wrapped in a transaction with it.  `clearFails` injects a storage failure
into that second statement: the handler then answers 500 from its catch
block, but the created order stays committed and the cart rows stay in
place. -/
def placeOrder (clearFails : Bool) (userId : Nat) (req : ShippingReq)
    (orderId : Nat) (orderNumber : String) (db : DB) : PlaceResult × DB :=
  if !validShipping req then (.validationError, db)
  else
    if (userCart userId db).isEmpty then (.emptyCart, db)
    else
      let order := assembleOrder userId req orderId orderNumber db
      let dbWithOrder : DB := { db with orders := db.orders ++ [order] }
      if clearFails then (.serverError, dbWithOrder)
      else
        (.success orderId orderNumber order.total "pending",
         { dbWithOrder with
             cartItems := dbWithOrder.cartItems.filter fun it => !(it.userId == userId) })

/-! ## Catalog edits (external collaborator writes into the Product table) -/

/-- A later catalog edit: the product update route rewrites fields of one
product row; the delete route removes the row.  Neither route touches the
`Order` or `OrderItem` tables, and the schema has no foreign key from
`OrderItem` to `Product` (the only cascade is `OrderItem → Order`). -/
inductive CatalogOp
  | updateProduct (pid : Int) (title : String) (price : Rat) (images : List String)
  | deleteProduct (pid : Int)
deriving DecidableEq

/-- Apply one catalog edit to the database. -/
def applyCatalogOp (db : DB) : CatalogOp → DB
  | .updateProduct pid t pr imgs =>
      { db with products := db.products.map fun p =>
          if p.id = pid then { p with title := t, price := pr, images := imgs } else p }
  | .deleteProduct pid =>
      { db with products := db.products.filter fun p => !(p.id == pid) }

/-- Apply a sequence of catalog edits, oldest first. -/
def applyCatalogOps (db : DB) : List CatalogOp → DB
  | [] => db
  | op :: ops => applyCatalogOps (applyCatalogOp db op) ops

/-! ## Fulfillment status transition -/

/-- Body of `PUT /api/orders/admin/:id/status` after destructuring;
`none` is an absent field. -/
structure StatusReq where
  status : Option String
  paymentStatus : Option String
  notes : Option String
deriving DecidableEq

/-- JavaScript truthiness of an optional string (`if (status) ...`). -/
def truthyStr : Option String → Bool
  | none => false
  | some s => s != ""

/-- `if (x) updateData.f = x` — a truthy incoming field overwrites the
stored one, a falsy one leaves it alone. -/
def statusField : Option String → String → String
  | some s, d => if s = "" then d else s
  | none, d => d

/-- Is there a product row with this id?  `prisma.product.update` keyed on
the unique `id` succeeds exactly when one exists and throws P2025
otherwise. -/
def hasProduct (ps : List Product) (pid : Int) : Bool :=
  ps.any fun p => p.id == pid

/-- The row rewrite a **successful**
`prisma.product.update({ where: { id }, data: { stock: { decrement } } })`
commits. -/
def decStockApplied (it : OrderItemRec) (ps : List Product) : List Product :=
  ps.map fun p =>
    if p.id = it.productId then { p with stock := p.stock - it.quantity } else p

/-- The row rewrite a **successful**
`prisma.product.update({ where: { id }, data: { stock: { increment } } })`
commits. -/
def incStockApplied (it : OrderItemRec) (ps : List Product) : List Product :=
  ps.map fun p =>
    if p.id = it.productId then { p with stock := p.stock + it.quantity } else p

/-- One `prisma.product.update` of the decrement loop: commits the rewrite
when the item's product row exists, throws (`none`) when the order item
references a product that has since been deleted. -/
def decStockOne (it : OrderItemRec) (ps : List Product) : Option (List Product) :=
  if hasProduct ps it.productId then some (decStockApplied it ps) else none

/-- One `prisma.product.update` of the increment loop; throws (`none`) on
a missing product row. -/
def incStockOne (it : OrderItemRec) (ps : List Product) : Option (List Product) :=
  if hasProduct ps it.productId then some (incStockApplied it ps) else none

/-- `for (const item of currentOrder.items) { await prisma.product.update
(...decrement...) }`: each update commits on its own (no transaction), so
the first missing product row throws out of the loop keeping the earlier
updates; `false` marks the aborted loop, paired with the products table as
committed so far. -/
def decStockForItems : List OrderItemRec → List Product → Bool × List Product
  | [], ps => (true, ps)
  | it :: rest, ps =>
      match decStockOne it ps with
      | some ps1 => decStockForItems rest ps1
      | none => (false, ps)

/-- The increment loop, aborting on the first missing product row exactly
like the decrement loop. -/
def incStockForItems : List OrderItemRec → List Product → Bool × List Product
  | [], ps => (true, ps)
  | it :: rest, ps =>
      match incStockOne it ps with
      | some ps1 => incStockForItems rest ps1
      | none => (false, ps)

/-- The pure effect of a decrement loop that runs to completion. -/
def decStockAll (items : List OrderItemRec) (ps : List Product) : List Product :=
  items.foldl (fun ps it => decStockApplied it ps) ps

/-- The pure effect of an increment loop that runs to completion. -/
def incStockAll (items : List OrderItemRec) (ps : List Product) : List Product :=
  items.foldl (fun ps it => incStockApplied it ps) ps

/-- Outcome of the status update handler.  `serverError` is the catch
block: a product update threw mid-loop, the response is 500, and the
partial stock writes before the throw stay committed. -/
inductive StatusResult
  | notFound
  | serverError
  | ok
deriving DecidableEq

/-- `orderRouter.put('/admin/:id/status')` (order.routes.ts lines 559-627),
after the auth check: read the current order, decrement stock when entering
`delivered` (guarded by the **previous** status) and mark the payment paid,
increment stock back when a truthy new status leaves `delivered`, then
write the collected field updates with `prisma.order.update`.  A product
update that throws mid-loop falls into the catch block: the loop stops,
the earlier per-row updates stay committed, and the order row is never
written (status and paymentStatus keep their old values). -/
def setStatus (orderId : Nat) (req : StatusReq) (db : DB) : StatusResult × DB :=
  match db.orders.find? (fun o => o.id == orderId) with
  | none => (.notFound, db)
  | some currentOrder =>
      let dec :=
        if req.status = some "delivered" ∧ currentOrder.status ≠ "delivered" then
          decStockForItems currentOrder.items db.products
        else (true, db.products)
      if dec.1 = false then (.serverError, { db with products := dec.2 })
      else
        let inc :=
          if currentOrder.status = "delivered" ∧ truthyStr req.status = true ∧
              req.status ≠ some "delivered" then
            incStockForItems currentOrder.items dec.2
          else (true, dec.2)
        if inc.1 = false then (.serverError, { db with products := inc.2 })
        else
          (.ok,
           { db with
               products := inc.2,
               orders := db.orders.map fun o =>
                 if o.id = orderId then
                   { o with
                     status := statusField req.status o.status,
                     paymentStatus :=
                       if req.status = some "delivered" ∧
                           currentOrder.status ≠ "delivered" then
                         "paid"
                       else statusField req.paymentStatus o.paymentStatus,
                     notes := match req.notes with
                       | some s => some s
                       | none => o.notes }
                 else o })

/-- The status request that marks an order delivered. -/
def deliveredReq : StatusReq := { status := some "delivered", paymentStatus := none, notes := none }

/-- The status request that cancels an order. -/
def cancelledReq : StatusReq := { status := some "cancelled", paymentStatus := none, notes := none }

/-- How an order row reads back after entering the delivered state from a
non-delivered status: status `"delivered"`, payment marked `"paid"`,
everything else (items included) untouched. -/
def markDelivered (o : OrderRec) : OrderRec :=
  { o with status := "delivered", paymentStatus := "paid" }

/-! ## Fixtures for the order claims -/

/-- ProductA of the spec scenario: price 10, stock 5. -/
def productA : Product :=
  { id := 1, title := "ProductA", slug := "product-a", price := 10,
    images := ["a.jpg"], stock := 5 }

/-- ProductB of the spec scenario: base price 25. -/
def productB : Product :=
  { id := 2, title := "ProductB", slug := "product-b", price := 25,
    images := ["b.jpg"], stock := 7 }

/-- A variant of ProductB overriding the price to 30. -/
def variantB30 : VariantRef := { id := some 9, name := some "XL", image := none, price := some 30 }

/-- Cart line: 2 × ProductA. -/
def cartLineA2 : CartItem :=
  { id := 1, userId := 1, productId := 1, quantity := 2,
    selectedColor := none, selectedSize := none,
    selectedVariant := none, customSelections := none }

/-- Cart line: 1 × ProductB with the price-30 variant. -/
def cartLineB1 : CartItem :=
  { id := 2, userId := 1, productId := 2, quantity := 1,
    selectedColor := none, selectedSize := none,
    selectedVariant := some variantB30, customSelections := none }

/-- Scenario database: the two products and the two cart lines of user 1. -/
def dbScenario : DB :=
  { cartItems := [cartLineA2, cartLineB1], orders := [],
    products := [productA, productB] }

/-- A complete shipping request with `deliveryArea = "inside"`. -/
def shipReqInside : ShippingReq :=
  { customerName := "N", customerEmail := "", customerPhone := "01",
    deliveryAddress := "Dhaka", deliveryArea := "inside", paymentMethod := "cod" }

/-- A variant whose price override is 0 (a free option). -/
def variantFree : VariantRef := { id := some 3, name := some "Free", image := none, price := some 0 }

/-- An already-placed pending order over 2 × ProductA. -/
def orderItemA2 : OrderItemRec :=
  { productId := 1, title := "ProductA", price := 10, quantity := 2,
    image := "a.jpg", selectedColor := none, selectedSize := none,
    selectedVariant := none, customSelections := none }

/-- A pending order of user 1 holding `orderItemA2`. -/
def orderPending : OrderRec :=
  { id := 1, orderNumber := "KNX-1", userId := 1, customerName := "N",
    customerEmail := "", customerPhone := "01", deliveryAddress := "Dhaka",
    deliveryArea := "inside", deliveryCharge := 80, subtotal := 20,
    total := 100, paymentMethod := "cod", paymentStatus := "pending",
    status := "pending", notes := none, items := [orderItemA2] }

/-- Database holding the pending order and the product table. -/
def dbWithOrder : DB :=
  { cartItems := [], orders := [orderPending], products := [productA, productB] }

/-- An order item whose product row has since been deleted (reachable:
`OrderItem` carries no foreign key to `Product`). -/
def orderItemGhost : OrderItemRec :=
  { productId := 99, title := "Ghost", price := 5, quantity := 1,
    image := "", selectedColor := none, selectedSize := none,
    selectedVariant := none, customSelections := none }

/-- A pending order over one existing product and one deleted product. -/
def orderDangling : OrderRec :=
  { orderPending with
    id := 2,
    orderNumber := "KNX-2",
    items := [orderItemA2, orderItemGhost] }

/-- Database holding the dangling order. -/
def dbDangling : DB :=
  { cartItems := [], orders := [orderDangling], products := [productA, productB] }

/-- C1 (counterexample): the add-to-cart handler merges a candidate into an
existing line of the same user, product, color and size even though their
`selectedVariant` fields are structurally different — the claim says a
candidate differing in `selectedVariant` alone gets a new separate line. -/
theorem addLine_ignores_variant_cex :
    (addLine 1 reqVariantB 2 [itemVariantA]).1 = AddResult.merged 1 2 ∧
    reqVariantB.selectedVariant ≠ itemVariantA.selectedVariant ∧
    reqVariantB.productId = some itemVariantA.productId ∧
    jsStrOrNull reqVariantB.selectedColor = itemVariantA.selectedColor ∧
    jsStrOrNull reqVariantB.selectedSize = itemVariantA.selectedSize := by
  decide

/-- C1 (amended): for a request with a truthy `productId`, `addLine` merges
into an existing line exactly when some line of the cart agrees on
`userId`, `productId`, `selectedColor` and `selectedSize` (falsy values
normalized to `null`); `selectedVariant` and `customSelections` play no
role in the match, and when no line agrees a single new row is appended. -/
theorem addLine_merge_iff (u : Nat) (req : AddReq) (n : Nat)
    (cart : List CartItem) (h : truthyPid req.productId = true) :
    ((∃ i q, (addLine u req n cart).1 = AddResult.merged i q) ↔
      cart.any (sameShallowKey u (req.productId.getD 0)
        (jsStrOrNull req.selectedColor) (jsStrOrNull req.selectedSize)) = true) ∧
    (cart.any (sameShallowKey u (req.productId.getD 0)
        (jsStrOrNull req.selectedColor) (jsStrOrNull req.selectedSize)) = false →
      ∃ newIt, (addLine u req n cart).1 = AddResult.created newIt ∧
        (addLine u req n cart).2 = cart ++ [newIt]) := by
  cases hfind : cart.find? (sameShallowKey u (req.productId.getD 0)
      (jsStrOrNull req.selectedColor) (jsStrOrNull req.selectedSize)) with
  | none =>
      have hany : cart.any (sameShallowKey u (req.productId.getD 0)
          (jsStrOrNull req.selectedColor) (jsStrOrNull req.selectedSize)) = false := by
        rw [List.any_eq_false]
        intro x hx
        exact List.find?_eq_none.mp hfind x hx
      refine ⟨?_, ?_⟩
      · simp only [addLine, h, hfind, Bool.not_true, Bool.false_eq_true,
          if_false, hany]
        constructor
        · rintro ⟨i, q, hiq⟩
          exact absurd hiq (by simp)
        · intro hcontra
          exact absurd hcontra (by simp)
      · intro _
        refine ⟨newCartItem u req n, ?_, ?_⟩ <;>
          simp [addLine, h, hfind]
  | some e =>
      have hany : cart.any (sameShallowKey u (req.productId.getD 0)
          (jsStrOrNull req.selectedColor) (jsStrOrNull req.selectedSize)) = true := by
        rw [List.any_eq_true]
        exact ⟨e, List.mem_of_find?_eq_some hfind, List.find?_some hfind⟩
      refine ⟨?_, ?_⟩
      · simp only [hany, iff_true]
        exact ⟨e.id, e.quantity + req.quantity, by simp [addLine, h, hfind]⟩
      · intro hcontra
        rw [hany] at hcontra
        exact absurd hcontra (by simp)

/-- Closed witness for the amended C1 theorem: adding `reqVariantB` to a
cart holding `itemVariantA` (same product, different variant) merges. -/
theorem addLine_merge_iff_witness :
    truthyPid reqVariantB.productId = true ∧
    (∃ i q, (addLine 1 reqVariantB 2 [itemVariantA]).1 = AddResult.merged i q) :=
  ⟨by decide,
   ((addLine_merge_iff 1 reqVariantB 2 [itemVariantA] (by decide)).1).mpr
     (by decide)⟩

/-- C3 (counterexample): `addLine` with `productId = 1` and requested
quantity `0 < 1` does not fail with a validation error — it inserts a cart
row with quantity 0. -/
theorem addLine_accepts_zero_quantity_cex :
    reqQtyZero.quantity < 1 ∧
    addLine 1 reqQtyZero 1 [] = (AddResult.created itemQtyZero, [itemQtyZero]) := by
  decide

/-- C3 (amended): `addLine` fails with a validation error exactly when
`productId` is missing (falsy); the requested quantity is never
validated. -/
theorem addLine_validation_iff (u : Nat) (req : AddReq) (n : Nat)
    (cart : List CartItem) :
    (addLine u req n cart).1 = AddResult.validationError ↔
      truthyPid req.productId = false := by
  cases htr : truthyPid req.productId with
  | false => simp [addLine, htr]
  | true =>
      simp only [htr, Bool.true_eq_false, iff_false]
      cases hfind : cart.find? (sameShallowKey u (req.productId.getD 0)
          (jsStrOrNull req.selectedColor) (jsStrOrNull req.selectedSize)) <;>
        simp [addLine, htr, hfind]

/-- C10: `setQuantity` rejects any quantity below 1 with a validation
error before the existence/ownership lookup runs, for every cart — in
particular also when the row does not exist or belongs to another user —
and leaves the cart unchanged. -/
theorem setQuantity_validates_before_lookup (u itemId : Nat) (q : Int)
    (cart : List CartItem) (h : q < 1) :
    setQuantity u itemId q cart = (SetQtyResult.validationError, cart) := by
  simp [setQuantity, if_pos h]

/-- Closed witness for C10: quantity 0 on an empty cart (the referenced
row does not exist) yields the validation error, not the not-found
error. -/
theorem setQuantity_validates_before_lookup_witness :
    (0 : Int) < 1 ∧
    setQuantity 1 99 0 [] = (SetQtyResult.validationError, []) :=
  ⟨by decide, setQuantity_validates_before_lookup 1 99 0 [] (by decide)⟩

/-- C4 (counterexample): a variant whose price override is the defined
value 0 does **not** take precedence: the implemented `||` chain returns
the product price 10, while the claimed `??` chain would return 0. -/
theorem pricing_zero_variant_price_cex :
    variantFree.price = some 0 ∧
    resolvePrice (some variantFree) (some productA) = 10 ∧
    resolvePriceSpec (some variantFree) (some productA) = 0 ∧
    resolvePrice (some variantFree) (some productA) ≠
      resolvePriceSpec (some variantFree) (some productA) := by
  decide

/-- C4 (amended): the pricing resolution is a total pure function
implementing falsy (`||`) coalescing rather than null (`??`) coalescing: a
variant price wins only when present **and nonzero**, else a present
nonzero product price wins, else 0; the display image likewise, with `""`
as the falsy string. -/
theorem resolve_falsy_coalescing (v : Option VariantRef) (p : Option Product) :
    (∀ q : Rat, v.bind VariantRef.price = some q → q ≠ 0 → resolvePrice v p = q) ∧
    (jsRatOrNull (v.bind VariantRef.price) = none →
      (∀ r : Rat, p.map Product.price = some r → r ≠ 0 → resolvePrice v p = r) ∧
      (jsRatOrNull (p.map Product.price) = none → resolvePrice v p = 0)) ∧
    (∀ s : String, v.bind VariantRef.image = some s → s ≠ "" → resolveImage v p = s) ∧
    (jsStrOrNull (v.bind VariantRef.image) = none →
      (∀ t : String, (p.bind fun pr => pr.images.head?) = some t → t ≠ "" →
        resolveImage v p = t) ∧
      (jsStrOrNull (p.bind fun pr => pr.images.head?) = none →
        resolveImage v p = "")) := by
  refine ⟨?_, ?_, ?_, ?_⟩
  · intro q hq hq0
    simp [resolvePrice, jsRatOrNull, hq, hq0]
  · intro hnone
    refine ⟨?_, ?_⟩
    · intro r hr hr0
      simp only [resolvePrice, hnone]
      simp [jsRatOrNull, hr, hr0]
    · intro hn2
      simp only [resolvePrice, hnone, hn2]
  · intro s hs hs0
    simp [resolveImage, jsStrOrNull, hs, hs0]
  · intro hnone
    refine ⟨?_, ?_⟩
    · intro t ht ht0
      simp only [resolveImage, hnone]
      simp [jsStrOrNull, ht, ht0]
    · intro hn2
      simp only [resolveImage, hnone, hn2]

/-- Closed witness for the amended C4 theorem: the nonzero variant
override 30 wins over the base price 25. -/
theorem resolve_falsy_coalescing_witness :
    resolvePrice (some variantB30) (some productB) = 30 :=
  (resolve_falsy_coalescing (some variantB30) (some productB)).1 30 (by decide) (by decide)

/-- C2: the order creation and the cart clearing are two separate
statements, not one atomic unit — when the clearing statement fails after
the order committed, the handler reports a server error yet the database
holds both the new order and the still-populated cart of the user. -/
theorem placeOrder_partial_failure_visible :
    (placeOrder true 1 shipReqInside 1 "KNX-1" dbScenario).1 = PlaceResult.serverError ∧
    ((placeOrder true 1 shipReqInside 1 "KNX-1" dbScenario).2.orders.map OrderRec.id) = [1] ∧
    userCart 1 (placeOrder true 1 shipReqInside 1 "KNX-1" dbScenario).2
      = [cartLineA2, cartLineB1] := by
  decide

/-- C9: place-order on a user whose cart has zero lines answers the
empty-cart error and returns the database untouched — no order row, no
cart change, no stock change. -/
theorem placeOrder_empty_cart_noop (clearFails : Bool) (u : Nat)
    (req : ShippingReq) (oid : Nat) (onum : String) (db : DB)
    (hv : validShipping req = true) (he : userCart u db = []) :
    placeOrder clearFails u req oid onum db = (PlaceResult.emptyCart, db) := by
  simp [placeOrder, hv, he]

/-- Closed witness for C9: user 2 has no cart rows in the scenario
database, so the place-order call changes nothing. -/
theorem placeOrder_empty_cart_noop_witness :
    validShipping shipReqInside = true ∧ userCart 2 dbScenario = [] ∧
    placeOrder false 2 shipReqInside 7 "KNX-7" dbScenario
      = (PlaceResult.emptyCart, dbScenario) :=
  ⟨by decide, by decide,
   placeOrder_empty_cart_noop false 2 shipReqInside 7 "KNX-7" dbScenario
     (by decide) (by decide)⟩

/-- Catalog edits never touch the orders table. -/
lemma applyCatalogOps_orders (db : DB) (ops : List CatalogOp) :
    (applyCatalogOps db ops).orders = db.orders := by
  induction ops generalizing db with
  | nil => rfl
  | cons op ops ih =>
      rw [applyCatalogOps, ih]
      cases op <;> rfl

/-- C8: an already-placed order is a frozen snapshot — after any sequence
of later catalog edits (price changes, title changes, product deletions)
the orders table is unchanged and the order record, every item field
included, is still present verbatim. -/
theorem order_snapshot_frozen (db : DB) (ops : List CatalogOp) (o : OrderRec)
    (ho : o ∈ db.orders) :
    (applyCatalogOps db ops).orders = db.orders ∧
    o ∈ (applyCatalogOps db ops).orders := by
  have h := applyCatalogOps_orders db ops
  exact ⟨h, h ▸ ho⟩

/-- Closed witness for C8: renaming/repricing then deleting ProductA
leaves the pending order (snapshot price 10, title "ProductA") intact. -/
theorem order_snapshot_frozen_witness :
    orderPending ∈ dbWithOrder.orders ∧
    ((applyCatalogOps dbWithOrder
        [CatalogOp.updateProduct 1 "Renamed" 999 [], CatalogOp.deleteProduct 1]).orders
      = dbWithOrder.orders ∧
     orderPending ∈ (applyCatalogOps dbWithOrder
        [CatalogOp.updateProduct 1 "Renamed" 999 [], CatalogOp.deleteProduct 1]).orders) :=
  ⟨by decide,
   order_snapshot_frozen dbWithOrder
     [CatalogOp.updateProduct 1 "Renamed" 999 [], CatalogOp.deleteProduct 1]
     orderPending (by decide)⟩

/-- A left fold that adds `f` of every element equals the starting value
plus the sum of the mapped list. -/
lemma foldl_add_map_sum (f : CartItem → Rat) (l : List CartItem) (a : Rat) :
    l.foldl (fun acc it => acc + f it) a = a + (l.map f).sum := by
  induction l generalizing a with
  | nil => simp
  | cons x xs ih =>
      rw [List.foldl_cons, ih, List.map_cons, List.sum_cons]
      ring

/-- The running subtotal accumulation equals the Σ(unitPrice × quantity)
formula. -/
lemma orderSubtotal_eq_sum (products : List Product) (cart : List CartItem) :
    orderSubtotal products cart =
      (cart.map fun it =>
        resolvePrice it.selectedVariant (products.find? fun p => p.id == it.productId)
          * (it.quantity : Rat)).sum := by
  have h := foldl_add_map_sum
    (fun it =>
      resolvePrice it.selectedVariant (products.find? fun p => p.id == it.productId)
        * (it.quantity : Rat)) cart 0
  simpa [orderSubtotal] using h

/-- C7: a successful place-order on a non-empty cart appends one order
whose subtotal is Σ(unitPrice × quantity) over the cart lines, whose
delivery charge is the constant 80 for area "inside" and 150 otherwise,
and whose total is exactly subtotal + deliveryCharge; in the spec scenario
(2 × ProductA at 10, 1 × ProductB with variant override 30, area
"inside") the subtotal is 50 and the total 130. -/
theorem placeOrder_totals (u oid : Nat) (onum : String) (req : ShippingReq)
    (db : DB) (hv : validShipping req = true)
    (hne : (userCart u db).isEmpty = false) :
    (∃ o : OrderRec,
      (placeOrder false u req oid onum db).2.orders = db.orders ++ [o] ∧
      o.subtotal = ((userCart u db).map fun it =>
          resolvePrice it.selectedVariant
            (db.products.find? fun p => p.id == it.productId)
            * (it.quantity : Rat)).sum ∧
      o.deliveryCharge = (if req.deliveryArea = "inside" then (80 : Rat) else 150) ∧
      o.total = o.subtotal + o.deliveryCharge) ∧
    ((placeOrder false 1 shipReqInside 1 "KNX-1" dbScenario).2.orders.map
        fun o => (o.subtotal, o.total)) = [((50 : Rat), (130 : Rat))] := by
  constructor
  · refine ⟨assembleOrder u req oid onum db, ?_, ?_, rfl, rfl⟩
    · simp [placeOrder, hv, hne]
    · exact orderSubtotal_eq_sum db.products (userCart u db)
  · have hv1 : validShipping shipReqInside = true := by decide
    have hne1 : (userCart 1 dbScenario).isEmpty = false := by decide
    have hcart : userCart 1 dbScenario = [cartLineA2, cartLineB1] := by decide
    have h50 : orderSubtotal dbScenario.products (userCart 1 dbScenario) = 50 := by
      rw [hcart]
      simp [orderSubtotal, dbScenario, cartLineA2, cartLineB1, productA, productB,
        variantB30, resolvePrice, jsRatOrNull, List.find?]
      norm_num
    have harea : shipReqInside.deliveryArea = "inside" := rfl
    simp [placeOrder, hv1, hne1, assembleOrder, h50, harea]
    norm_num [dbScenario]

/-- Closed witness for C7 at the spec scenario input. -/
theorem placeOrder_totals_witness :
    validShipping shipReqInside = true ∧
    (userCart 1 dbScenario).isEmpty = false ∧
    (∃ o : OrderRec,
      (placeOrder false 1 shipReqInside 1 "KNX-1" dbScenario).2.orders
        = dbScenario.orders ++ [o] ∧
      o.subtotal = ((userCart 1 dbScenario).map fun it =>
          resolvePrice it.selectedVariant
            (dbScenario.products.find? fun p => p.id == it.productId)
            * (it.quantity : Rat)).sum ∧
      o.deliveryCharge = (if shipReqInside.deliveryArea = "inside" then (80 : Rat) else 150) ∧
      o.total = o.subtotal + o.deliveryCharge) :=
  ⟨by decide, by decide,
   (placeOrder_totals 1 1 "KNX-1" shipReqInside dbScenario (by decide) (by decide)).1⟩

/-- The rewrite of a successful decrement keeps every product id, so row
existence is unchanged. -/
lemma hasProduct_decStockApplied (jt : OrderItemRec) (ps : List Product)
    (pid : Int) :
    hasProduct (decStockApplied jt ps) pid = hasProduct ps pid := by
  unfold hasProduct decStockApplied
  rw [List.any_map]
  congr 1
  funext p
  by_cases h : p.id = jt.productId <;> simp [Function.comp, h]

/-- The rewrite of a successful increment keeps every product id. -/
lemma hasProduct_incStockApplied (jt : OrderItemRec) (ps : List Product)
    (pid : Int) :
    hasProduct (incStockApplied jt ps) pid = hasProduct ps pid := by
  unfold hasProduct incStockApplied
  rw [List.any_map]
  congr 1
  funext p
  by_cases h : p.id = jt.productId <;> simp [Function.comp, h]

/-- A completed decrement loop keeps every product id. -/
lemma hasProduct_decStockAll (items : List OrderItemRec) (ps : List Product)
    (pid : Int) :
    hasProduct (decStockAll items ps) pid = hasProduct ps pid := by
  induction items generalizing ps with
  | nil => rfl
  | cons it rest ih =>
      have h1 : decStockAll (it :: rest) ps
          = decStockAll rest (decStockApplied it ps) := rfl
      rw [h1, ih, hasProduct_decStockApplied]

/-- When every item's product row exists, the decrement loop runs to
completion and commits exactly the pure fold. -/
lemma decStockForItems_resolvable (items : List OrderItemRec)
    (ps : List Product)
    (h : ∀ it ∈ items, hasProduct ps it.productId = true) :
    decStockForItems items ps = (true, decStockAll items ps) := by
  induction items generalizing ps with
  | nil => rfl
  | cons it rest ih =>
      have hhead : hasProduct ps it.productId = true := h it (by simp)
      have hrest : ∀ jt ∈ rest, hasProduct (decStockApplied it ps) jt.productId = true := by
        intro jt hjt
        rw [hasProduct_decStockApplied]
        exact h jt (by simp [hjt])
      have h1 : decStockForItems (it :: rest) ps
          = decStockForItems rest (decStockApplied it ps) := by
        simp [decStockForItems, decStockOne, hhead]
      rw [h1, ih (decStockApplied it ps) hrest]
      rfl

/-- When every item's product row exists, the increment loop runs to
completion and commits exactly the pure fold. -/
lemma incStockForItems_resolvable (items : List OrderItemRec)
    (ps : List Product)
    (h : ∀ it ∈ items, hasProduct ps it.productId = true) :
    incStockForItems items ps = (true, incStockAll items ps) := by
  induction items generalizing ps with
  | nil => rfl
  | cons it rest ih =>
      have hhead : hasProduct ps it.productId = true := h it (by simp)
      have hrest : ∀ jt ∈ rest, hasProduct (incStockApplied it ps) jt.productId = true := by
        intro jt hjt
        rw [hasProduct_incStockApplied]
        exact h jt (by simp [hjt])
      have h1 : incStockForItems (it :: rest) ps
          = incStockForItems rest (incStockApplied it ps) := by
        simp [incStockForItems, incStockOne, hhead]
      rw [h1, ih (incStockApplied it ps) hrest]
      rfl

/-- Sanity check of the abort path kept faithful here: delivering an
order whose items include a deleted product commits the first decrement,
answers with the server error, and leaves the order row (status still
`"pending"`) unwritten — stock and status are not adjusted atomically on
this path. -/
lemma setStatus_dangling_item_partial :
    (setStatus 2 deliveredReq dbDangling).1 = StatusResult.serverError ∧
    (setStatus 2 deliveredReq dbDangling).2.products
      = [{ productA with stock := 3 }, productB] ∧
    (setStatus 2 deliveredReq dbDangling).2.orders = dbDangling.orders := by
  decide

/-- Undoing one decrement with the matching increment restores the
product table. -/
lemma incStockApplied_decStockApplied_cancel (it : OrderItemRec)
    (ps : List Product) :
    incStockApplied it (decStockApplied it ps) = ps := by
  induction ps with
  | nil => rfl
  | cons p t ih =>
      have h1 : decStockApplied it (p :: t) =
          (if p.id = it.productId then { p with stock := p.stock - it.quantity } else p)
            :: decStockApplied it t := rfl
      have h2 : ∀ (q : Product) (l : List Product), incStockApplied it (q :: l) =
          (if q.id = it.productId then { q with stock := q.stock + it.quantity } else q)
            :: incStockApplied it l := fun _ _ => rfl
      rw [h1, h2, ih]
      by_cases h : p.id = it.productId
      · rw [if_pos h,
          if_pos (show ({ p with stock := p.stock - it.quantity } : Product).id
            = it.productId from h)]
        cases p with
        | mk pid pt psl ppr pim pst => simp [Int.sub_add_cancel]
      · rw [if_neg h, if_neg h]

/-- A single committed increment commutes with a single committed
decrement (they touch stock counters additively). -/
lemma decStockApplied_incStockApplied_comm (it jt : OrderItemRec)
    (ps : List Product) :
    decStockApplied jt (incStockApplied it ps)
      = incStockApplied it (decStockApplied jt ps) := by
  unfold decStockApplied incStockApplied
  rw [List.map_map, List.map_map]
  congr 1
  funext p
  simp only [Function.comp]
  by_cases h1 : p.id = it.productId <;> by_cases h2 : p.id = jt.productId
  · rw [if_pos h1, if_pos h2,
      if_pos (show ({ p with stock := p.stock + it.quantity } : Product).id
        = jt.productId from h2),
      if_pos (show ({ p with stock := p.stock - jt.quantity } : Product).id
        = it.productId from h1)]
    cases p with
    | mk pid pt psl ppr pim pst =>
        simp
        omega
  · rw [if_pos h1, if_neg h2,
      if_neg (show ¬ ({ p with stock := p.stock + it.quantity } : Product).id
        = jt.productId from h2), if_pos h1]
  · rw [if_neg h1, if_pos h2,
      if_neg (show ¬ ({ p with stock := p.stock - jt.quantity } : Product).id
        = it.productId from h1)]
  · rw [if_neg h1, if_neg h2, if_neg h1]

/-- A single committed increment commutes with a completed decrement
loop. -/
lemma incStockApplied_decStockAll_comm (it : OrderItemRec)
    (items : List OrderItemRec) (ps : List Product) :
    incStockApplied it (decStockAll items ps)
      = decStockAll items (incStockApplied it ps) := by
  induction items generalizing ps with
  | nil => rfl
  | cons jt rest ih =>
      have h1 : decStockAll (jt :: rest) ps
          = decStockAll rest (decStockApplied jt ps) := rfl
      have h2 : decStockAll (jt :: rest) (incStockApplied it ps)
          = decStockAll rest (decStockApplied jt (incStockApplied it ps)) := rfl
      rw [h1, h2, ih, decStockApplied_incStockApplied_comm]

/-- A completed increment loop after a completed decrement loop over the
same items restores every stock counter. -/
lemma incStockAll_decStockAll_cancel (items : List OrderItemRec)
    (ps : List Product) :
    incStockAll items (decStockAll items ps) = ps := by
  induction items generalizing ps with
  | nil => rfl
  | cons it rest ih =>
      have h1 : decStockAll (it :: rest) ps
          = decStockAll rest (decStockApplied it ps) := rfl
      have h2 : ∀ X, incStockAll (it :: rest) X
          = incStockAll rest (incStockApplied it X) := fun _ => rfl
      rw [h1, h2, incStockApplied_decStockAll_comm,
        incStockApplied_decStockApplied_cancel, ih]

/-- An id-preserving row rewrite commutes with looking a row up by id. -/
lemma find?_map_id_pred (l : List OrderRec) (oid : Nat) (g : OrderRec → OrderRec)
    (hg : ∀ o, (g o).id = o.id) :
    ((l.map g).find? fun o => o.id == oid)
      = (l.find? fun o => o.id == oid).map g := by
  induction l with
  | nil => rfl
  | cons p t ih =>
      by_cases h : (p.id == oid) = true
      · have hgp : ((g p).id == oid) = true := by rw [hg p]; exact h
        rw [List.map_cons,
          List.find?_cons_of_pos (p := fun o : OrderRec => o.id == oid) _ hgp,
          List.find?_cons_of_pos (p := fun o : OrderRec => o.id == oid) _ h]
        rfl
      · have hgp : ¬ ((g p).id == oid) = true := by rw [hg p]; exact h
        rw [List.map_cons,
          List.find?_cons_of_neg (p := fun o : OrderRec => o.id == oid) _ hgp,
          List.find?_cons_of_neg (p := fun o : OrderRec => o.id == oid) _ h, ih]

/-- Looking up the transitioned order in the rewritten orders table gives
`markDelivered` of the old row. -/
lemma find?_after_enter (oid : Nat) (db : DB) (o : OrderRec)
    (hfind : (db.orders.find? fun x => x.id == oid) = some o) :
    ((db.orders.map fun x => if x.id = oid then markDelivered x else x).find?
        fun x => x.id == oid)
      = some (markDelivered o) := by
  rw [find?_map_id_pred db.orders oid]
  · rw [hfind]
    have ho : o.id = oid := by
      have h := List.find?_some hfind
      simpa using h
    simp [ho]
  · intro x
    by_cases hx : x.id = oid <;> simp [hx, markDelivered]

/-- Entering the delivered state from a non-delivered status, with every
item's product row present: the decrement loop completes once, the order
row is rewritten to delivered/paid, nothing else changes. -/
lemma setStatus_enter_delivered_state (oid : Nat) (db : DB) (o : OrderRec)
    (hfind : (db.orders.find? fun x => x.id == oid) = some o)
    (hnot : o.status ≠ "delivered")
    (hres : ∀ it ∈ o.items, hasProduct db.products it.productId = true) :
    (setStatus oid deliveredReq db).2
      = { db with
          products := decStockAll o.items db.products,
          orders := db.orders.map fun x =>
            if x.id = oid then markDelivered x else x } := by
  have hdec := decStockForItems_resolvable o.items db.products hres
  have hE : deliveredReq.status = some "delivered" ∧ o.status ≠ "delivered" :=
    ⟨rfl, hnot⟩
  have hL : ¬ (o.status = "delivered" ∧ truthyStr deliveredReq.status = true ∧
      deliveredReq.status ≠ some "delivered") := fun hc => hnot hc.1
  simp only [setStatus, hfind]
  rw [if_pos hE, hdec, if_neg hL]
  simp [statusField, deliveredReq, markDelivered, hnot]

/-- Leaving the delivered state towards cancelled, with every item's
product row present: the increment loop completes once and the order row
is rewritten to cancelled. -/
lemma setStatus_leave_delivered_state (oid : Nat) (db : DB) (o : OrderRec)
    (hfind : (db.orders.find? fun x => x.id == oid) = some o)
    (hdel : o.status = "delivered")
    (hres : ∀ it ∈ o.items, hasProduct db.products it.productId = true) :
    (setStatus oid cancelledReq db).2
      = { db with
          products := incStockAll o.items db.products,
          orders := db.orders.map fun x =>
            if x.id = oid then { x with status := "cancelled" } else x } := by
  have hinc := incStockForItems_resolvable o.items db.products hres
  have hE : ¬ (cancelledReq.status = some "delivered" ∧ o.status ≠ "delivered") :=
    fun hc => absurd hc.1 (by decide)
  have hL : o.status = "delivered" ∧ truthyStr cancelledReq.status = true ∧
      cancelledReq.status ≠ some "delivered" := ⟨hdel, by decide, by decide⟩
  simp only [setStatus, hfind]
  rw [if_neg hE, if_pos hL]
  simp [hinc, statusField, cancelledReq]

/-- C5: for an order whose items all reference existing products, marking
it delivered twice in a row decrements each item's parent product stock
exactly once in total — the first call runs the decrement loop to
completion, and the second call (now guarded by the stored previous
status `"delivered"`) leaves the product table untouched. -/
theorem setStatus_delivered_twice_decrements_once (db : DB) (oid : Nat)
    (o : OrderRec) (hfind : (db.orders.find? fun x => x.id == oid) = some o)
    (hnot : o.status ≠ "delivered")
    (hres : ∀ it ∈ o.items, hasProduct db.products it.productId = true) :
    (setStatus oid deliveredReq db).2.products
      = decStockAll o.items db.products ∧
    (setStatus oid deliveredReq (setStatus oid deliveredReq db).2).2.products
      = (setStatus oid deliveredReq db).2.products := by
  have hstate := setStatus_enter_delivered_state oid db o hfind hnot hres
  constructor
  · rw [hstate]
  · rw [hstate]
    have hfind2 := find?_after_enter oid db o hfind
    have hE : ¬ (deliveredReq.status = some "delivered" ∧
        (markDelivered o).status ≠ "delivered") := fun hc => hc.2 rfl
    have hL : ¬ ((markDelivered o).status = "delivered" ∧
        truthyStr deliveredReq.status = true ∧
        deliveredReq.status ≠ some "delivered") := fun hc => hc.2.2 rfl
    simp only [setStatus, hfind2]
    rw [if_neg hE, if_neg hL]
    simp

/-- Closed witness for C5 on the pending order over 2 × ProductA, whose
product rows all exist. -/
theorem setStatus_delivered_twice_decrements_once_witness :
    (dbWithOrder.orders.find? fun x => x.id == 1) = some orderPending ∧
    orderPending.status ≠ "delivered" ∧
    (∀ it ∈ orderPending.items,
      hasProduct dbWithOrder.products it.productId = true) ∧
    ((setStatus 1 deliveredReq dbWithOrder).2.products
        = decStockAll orderPending.items dbWithOrder.products ∧
     (setStatus 1 deliveredReq (setStatus 1 deliveredReq dbWithOrder).2).2.products
        = (setStatus 1 deliveredReq dbWithOrder).2.products) :=
  ⟨by decide, by decide, by decide,
   setStatus_delivered_twice_decrements_once dbWithOrder 1 orderPending
     (by decide) (by decide) (by decide)⟩

/-- C6: for an order whose items all reference existing products, the
transition sequence pending → delivered → cancelled restores every
product's stock to its pre-delivery value: leaving the delivered state
increments each item's parent product back by exactly the quantity
decremented on entering it. -/
theorem setStatus_roundtrip_restores_stock (db : DB) (oid : Nat) (o : OrderRec)
    (hfind : (db.orders.find? fun x => x.id == oid) = some o)
    (hpending : o.status = "pending")
    (hres : ∀ it ∈ o.items, hasProduct db.products it.productId = true) :
    (setStatus oid cancelledReq (setStatus oid deliveredReq db).2).2.products
      = db.products := by
  have hnot : o.status ≠ "delivered" := by rw [hpending]; decide
  rw [setStatus_enter_delivered_state oid db o hfind hnot hres]
  have hfind2 := find?_after_enter oid db o hfind
  have hres2 : ∀ it ∈ (markDelivered o).items,
      hasProduct (decStockAll o.items db.products) it.productId = true := by
    intro it hit
    rw [hasProduct_decStockAll]
    exact hres it hit
  rw [setStatus_leave_delivered_state oid
    { db with
      products := decStockAll o.items db.products,
      orders := db.orders.map fun x =>
        if x.id = oid then markDelivered x else x }
    (markDelivered o) hfind2 rfl hres2]
  exact incStockAll_decStockAll_cancel o.items db.products

/-- Closed witness for C6: on the pending order, delivery then
cancellation leaves [ProductA stock 5, ProductB stock 7] as before. -/
theorem setStatus_roundtrip_restores_stock_witness :
    (dbWithOrder.orders.find? fun x => x.id == 1) = some orderPending ∧
    orderPending.status = "pending" ∧
    (∀ it ∈ orderPending.items,
      hasProduct dbWithOrder.products it.productId = true) ∧
    (setStatus 1 cancelledReq (setStatus 1 deliveredReq dbWithOrder).2).2.products
      = dbWithOrder.products :=
  ⟨by decide, by decide, by decide,
   setStatus_roundtrip_restores_stock dbWithOrder 1 orderPending
     (by decide) (by decide) (by decide)⟩

end Knex
